import Mathlib

/-!
Shallow embedding of the sentiment analysis tool (src/sentiment1.py) and a
verification of its specification claims.  Python floats are modelled as
rationals, raised Python exceptions as explicit error values, and the two
third-party scorers (VADER and TextBlob) together with the file system as
oracle functions, since their code lives outside this repository.
-/

namespace Sentiment1

/-- Python value stored in a result slot: None, a float, or a string. -/
inductive PyVal where
  | none
  | num (q : ℚ)
  | str (s : String)
deriving DecidableEq

/-- Outcome of the call analyzer.polarity_scores(text): either the score
dictionary (an insertion-ordered association list, as Python dicts are) or a
raised exception. -/
inductive VaderOutcome where
  | ok (scores : List (String × ℚ))
  | exn (msg : String)

/-- Return value of analyze_sentiment_vader: the score dictionary on success,
or the pair (None, str(e)) built by the except branch. -/
inductive VaderRet where
  | dict (scores : List (String × ℚ))
  | errPair (msg : String)
deriving DecidableEq

/-- The field self.vader_scores: None at start-up and after clearing, otherwise
whatever analyze_sentiment_vader returned. -/
inductive VaderField where
  | pynone
  | ret (r : VaderRet)
deriving DecidableEq

/-- Outcome of TextBlob(text).sentiment: a polarity and subjectivity pair, or a
raised exception. -/
inductive BlobOutcome where
  | ok (polarity subjectivity : ℚ)
  | exn (msg : String)

/-- Embedding of analyze_sentiment_vader (sentiment1.py lines 14-19): return
the score dictionary, or on exception the tuple (None, str(e)). -/
def analyze_sentiment_vader (vader : String → VaderOutcome) (text : String) : VaderRet :=
  match vader text with
  | VaderOutcome.ok scores => VaderRet.dict scores
  | VaderOutcome.exn e => VaderRet.errPair e

/-- Embedding of analyze_sentiment_textblob (lines 21-27): the pair
(polarity, subjectivity) on success, or the pair (None, str(e)) on exception. -/
def analyze_sentiment_textblob (blob : String → BlobOutcome) (text : String) :
    Option ℚ × PyVal :=
  match blob text with
  | BlobOutcome.ok p sub => (some p, PyVal.num sub)
  | BlobOutcome.exn e => (Option.none, PyVal.str e)

/-- Python truthiness of the value stored in self.vader_scores by line 116:
a dict is truthy iff it is non-empty, and the two-element tuple returned by the
except branch of analyze_sentiment_vader is always truthy. -/
def vaderRetTruthy : VaderRet → Bool
  | VaderRet.dict scores => !scores.isEmpty
  | VaderRet.errPair _ => true

/-- One step of Python max(iterable, key=...): the running best is replaced
only when a later value is strictly greater, so the first value attaining the
maximum wins ties. -/
def pyMaxKeyAux (best : String × ℚ) : List (String × ℚ) → String × ℚ
  | [] => best
  | kv :: rest => pyMaxKeyAux (if best.2 < kv.2 then kv else best) rest

/-- Embedding of max(self.vader_scores, key=self.vader_scores.get) on line 118:
the first key of the dictionary, in iteration order, whose value is maximal.
Python max raises ValueError on an empty iterable, modelled as none. -/
def pyMaxKey : List (String × ℚ) → Option String
  | [] => Option.none
  | kv :: rest => some (pyMaxKeyAux kv rest).1

/-- Base-10 digits of a number, with structural fuel so that the kernel can
evaluate it. -/
def natDigitsAux : Nat → Nat → List Char → List Char
  | 0, _, acc => acc
  | _ + 1, 0, acc => acc
  | fuel + 1, n, acc => natDigitsAux fuel (n / 10) (Char.ofNat (48 + n % 10) :: acc)

/-- Decimal rendering of a natural number. -/
def natShow (n : Nat) : String :=
  if n = 0 then "0" else String.mk (natDigitsAux n n [])

/-- Decimal rendering of an integer. -/
def intShow (i : Int) : String :=
  if i < 0 then "-" ++ natShow i.natAbs else natShow i.natAbs

/-- Stand-in for the Python formatting of one numeric score.  The exact digit
rendering is irrelevant to every claim; only that some text is produced. -/
def fmt4 (q : ℚ) : String := intShow q.num ++ "/" ++ natShow q.den

/-- Rendering of the stored subjectivity slot inside the result text: a float
on the branch that formats it; the other constructors never reach the format
call in the source. -/
def fmtSub : PyVal → String
  | PyVal.num q => fmt4 q
  | PyVal.none => "None"
  | PyVal.str s => s

/-- Stand-in for the Python repr of the score dictionary inside the f-string of
line 120. -/
def reprScores : List (String × ℚ) → String
  | [] => ""
  | (k, v) :: rest => k ++ "=" ++ fmt4 v ++ "; " ++ reprScores rest

/-- Embedding of line 127: Positive if polarity > 0 else Negative if
polarity < 0 else Neutral. -/
def textblob_label (p : ℚ) : String :=
  if 0 < p then "Positive" else if p < 0 then "Negative" else "Neutral"

/-- Removal of leading whitespace from a character list. -/
def dropWhileWs : List Char → List Char
  | [] => []
  | c :: rest =>
      if c = ' ' ∨ c = '\t' ∨ c = '\n' ∨ c = '\r' then dropWhileWs rest
      else c :: rest

/-- Embedding of Python str.strip() as used on line 110 (ASCII whitespace; the
further characters Python strips never affect the claims, which depend only on
whether the stripped text is empty). -/
def pyStrip (s : String) : String :=
  String.mk (List.reverse (dropWhileWs (List.reverse (dropWhileWs s.data))))

/-- The mutable state of SentimentAnalysisApp observed by the claims: the text
entry widget content, the result label text, and the stored result fields
(lines 65-72). -/
structure AppState where
  text_entry : String
  result_label : String
  results : String
  vader_scores : VaderField
  polarity : Option ℚ
  subjectivity : PyVal
  file_content : String
deriving DecidableEq

/-- State right after __init__ (lines 65-72). -/
def initState : AppState :=
  { text_entry := "", result_label := "", results := "",
    vader_scores := VaderField.pynone, polarity := Option.none,
    subjectivity := PyVal.none, file_content := "" }

/-- Line 110: the text analyzed is the stripped entry text when it is
non-empty, otherwise the stored file content. -/
def effectiveText (s : AppState) : String :=
  if pyStrip s.text_entry = "" then s.file_content else pyStrip s.text_entry

/-- Result of one call to perform_analysis: an input warning with the state
left untouched, normal completion, or an uncaught Python exception raised at
some intermediate state. -/
inductive AnalysisOutcome where
  | warned (s : AppState)
  | completed (s : AppState)
  | raised (s : AppState) (err : String)
deriving DecidableEq

/-- Lines 124-134: run the TextBlob scorer, extend the result text, and store
all result fields.  The visualizer.plot call after it is presentation-layer
and is not modelled. -/
def finishBlob (blob : String → BlobOutcome) (text : String) (s1 : AppState)
    (result1 : String) : AppState :=
  let pr := analyze_sentiment_textblob blob text
  let result2 :=
    match pr.1 with
    | some p =>
        result1 ++ "Overall Sentiment (TextBlob): " ++ textblob_label p ++ "\n" ++
          "Polarity: " ++ fmt4 p ++ "\n" ++ "Subjectivity: " ++ fmtSub pr.2
    | Option.none => result1 ++ "Error analyzing sentiment with TextBlob."
  { s1 with polarity := pr.1, subjectivity := pr.2,
            results := result2, result_label := result2 }

/-- Lines 116-123: store the VADER return value, test its Python truthiness,
and either build the VADER result line or reach the error branch.  On the
truthy tuple returned after a VADER exception, evaluating
self.vader_scores.get raises AttributeError. -/
def vaderStage (blob : String → BlobOutcome) (vret : VaderRet) (text : String)
    (s : AppState) : AnalysisOutcome :=
  let s1 : AppState := { s with vader_scores := VaderField.ret vret }
  if vaderRetTruthy vret then
    match vret with
    | VaderRet.errPair _ =>
        AnalysisOutcome.raised s1 "AttributeError: tuple object has no attribute get"
    | VaderRet.dict scores =>
        match pyMaxKey scores with
        | Option.none => AnalysisOutcome.raised s1 "ValueError: max arg is an empty sequence"
        | some k =>
            AnalysisOutcome.completed (finishBlob blob text s1
              ("Overall Sentiment (VADER): " ++ k ++ "\n" ++
                "Scores: " ++ reprScores scores ++ "\n"))
  else
    AnalysisOutcome.completed
      (finishBlob blob text s1 "Error analyzing sentiment with VADER.\n")

/-- Embedding of perform_analysis (lines 109-137). -/
def perform_analysis (vader : String → VaderOutcome) (blob : String → BlobOutcome)
    (s : AppState) : AnalysisOutcome :=
  if effectiveText s = "" then AnalysisOutcome.warned s
  else vaderStage blob (analyze_sentiment_vader vader (effectiveText s)) (effectiveText s) s

/-- Embedding of clear_text (lines 139-148); the visualizer reset is
presentation-layer. -/
def clear_text (_s : AppState) : AppState :=
  { text_entry := "", result_label := "", results := "",
    vader_scores := VaderField.pynone, polarity := Option.none,
    subjectivity := PyVal.none, file_content := "" }

/-- Result of one call to save_results. -/
inductive SaveOutcome where
  | noResultsWarning (s : AppState)
  | saved (s : AppState) (path content : String)
  | cancelled (s : AppState)
deriving DecidableEq

/-- Embedding of save_results (lines 158-167); the file dialog is an oracle
returning the chosen path, or None on cancel. -/
def save_results (dialog : Option String) (s : AppState) : SaveOutcome :=
  if s.results ≠ "" then
    match dialog with
    | some path => SaveOutcome.saved s path s.results
    | Option.none => SaveOutcome.cancelled s
  else SaveOutcome.noResultsWarning s

/-- The file extraction oracles: reading a text file, reading and rendering a
CSV via pandas, and opening a PDF as a list of per-page extraction outcomes.
Each can raise, modelled as an error value. -/
structure FileSystem where
  readTxt : String → Except String String
  readCsv : String → Except String String
  openPdf : String → Except String (List (Except String String))

/-- Lines 40-42: fold the PDF pages left to right, appending each page text to
the accumulated content; a page whose extraction raises aborts the whole call. -/
def extractPagesFrom : List (Except String String) → String → Except String String
  | [], acc => Except.ok acc
  | Except.ok t :: rest, acc => extractPagesFrom rest (acc ++ t)
  | Except.error e :: _, _ => Except.error e

/-- Embedding of process_file (lines 30-43): content starts empty, one branch
per recognized file type, exceptions propagate to the caller. -/
def process_file (fs : FileSystem) (file_path file_type : String) : Except String String :=
  if file_type = "txt" then fs.readTxt file_path
  else if file_type = "csv" then fs.readCsv file_path
  else if file_type = "pdf" then
    match fs.openPdf file_path with
    | Except.error e => Except.error e
    | Except.ok pages => extractPagesFrom pages ""
  else Except.ok ""

/-- True exactly when extraction raised. -/
def isStrError : Except String String → Bool
  | Except.error _ => true
  | Except.ok _ => false

/-- Modelled from the spec: the TextBlob analyzer itself is a third-party
library absent from src.  The spec states that on success the polarity lies in
[-1, 1] and the subjectivity in [0, 1]; on failure the call raises. -/
structure TextBlobModel where
  run : String → BlobOutcome
  polarity_range : ∀ t p sub, run t = BlobOutcome.ok p sub → -1 ≤ p ∧ p ≤ 1
  subjectivity_range : ∀ t p sub, run t = BlobOutcome.ok p sub → 0 ≤ sub ∧ sub ≤ 1

/-- Value of a key in a score list, zero when missing. -/
def lookupScore : List (String × ℚ) → String → ℚ
  | [], _ => 0
  | (key, v) :: rest, k => if k = key then v else lookupScore rest k

/-- Written from the words of the spec, for comparison with the code: the
overall sentiment is the key among pos, neu, neg with the maximum value, ties
broken by the first-encountered key in the enumeration order pos, neu, neg,
compound. -/
def specOverallSentiment (scores : List (String × ℚ)) : String :=
  let p := lookupScore scores "pos"
  let n := lookupScore scores "neu"
  let g := lookupScore scores "neg"
  if n ≤ p ∧ g ≤ p then "pos"
  else if g ≤ n then "neu"
  else "neg"

/-- The property the spec asserts of the stored subjectivity slot: absent, or a
number in [0, 1]. -/
def specSubjectivityOk : PyVal → Prop
  | PyVal.none => True
  | PyVal.num q => 0 ≤ q ∧ q ≤ 1
  | PyVal.str _ => False

/-- Oracle for a VADER call that raises an exception on every input. -/
def vaderBoom : String → VaderOutcome := fun _ => VaderOutcome.exn "boom"

/-- Oracle for a TextBlob call that succeeds with polarity 1, subjectivity 0. -/
def blobOkDemo : String → BlobOutcome := fun _ => BlobOutcome.ok 1 0

/-- Oracle for a VADER call that succeeds with a fixed score dictionary. -/
def vOkDemo : String → VaderOutcome :=
  fun _ => VaderOutcome.ok [("neg", 0), ("neu", 0), ("pos", 1), ("compound", 1)]

/-- State with the entry text hello and everything else fresh. -/
def c2State : AppState := { initState with text_entry := "hello" }

/-- The state at which the AttributeError is raised after a VADER exception:
only vader_scores has been assigned. -/
def c2Raised : AppState :=
  { c2State with vader_scores := VaderField.ret (VaderRet.errPair "boom") }

/-- State with the entry text good and everything else fresh. -/
def c3DemoState : AppState := { initState with text_entry := "good" }

/-- The state produced by one successful analysis from c3DemoState. -/
def c3Demo1 : AppState :=
  match perform_analysis vOkDemo blobOkDemo c3DemoState with
  | AnalysisOutcome.completed s => s
  | _ => initState

/-- State with a two-word entry text and everything else fresh. -/
def c10DemoState : AppState := { initState with text_entry := "nice day" }

/-- The state produced by one successful analysis from c10DemoState. -/
def c10Final : AppState :=
  match perform_analysis vOkDemo blobOkDemo c10DemoState with
  | AnalysisOutcome.completed s => s
  | _ => initState

/-- A file system on which every extraction fails: the text and CSV reads
raise, and the PDF opens but its second page raises partway through. -/
def c4Fs : FileSystem where
  readTxt := fun _ => Except.error "IOError: bad encoding"
  readCsv := fun _ => Except.error "ParseError: malformed csv"
  openPdf := fun _ => Except.ok [Except.ok "page one ", Except.error "ParseError: bad page"]

/-- A TextBlob model whose call raises on every input. -/
def blobBoomModel : TextBlobModel where
  run := fun _ => BlobOutcome.exn "boom"
  polarity_range := fun _ _ _ h => BlobOutcome.noConfusion h
  subjectivity_range := fun _ _ _ h => BlobOutcome.noConfusion h

/-- A realistic VADER score dictionary, in the iteration order VADER builds it,
whose compound entry is strictly larger than pos, neu and neg. -/
def cexScores : List (String × ℚ) :=
  [("neg", 0), ("neu", (⟨323, 1000, by norm_num, by norm_num⟩ : ℚ)),
   ("pos", (⟨677, 1000, by norm_num, by norm_num⟩ : ℚ)),
   ("compound", (⟨9, 10, by norm_num, by norm_num⟩ : ℚ))]

/-- A score dictionary with a pos/neu tie at the maximum. -/
def tieScores : List (String × ℚ) :=
  [("neg", 0), ("neu", (⟨1, 2, by norm_num, by norm_num⟩ : ℚ)),
   ("pos", (⟨1, 2, by norm_num, by norm_num⟩ : ℚ)), ("compound", 0)]

/-- A string append with a non-empty left part is non-empty. -/
theorem append_ne_empty_left (a b : String) (h : a ≠ "") : a ++ b ≠ "" := by
  cases a with
  | mk da =>
    cases b with
    | mk db =>
      intro hab
      apply h
      have h2 : da ++ db = [] := congrArg String.data hab
      have hda : da = [] := (List.append_eq_nil.mp h2).1
      rw [hda]

/-- The results field written by the TextBlob stage extends its first argument,
so it is non-empty whenever that argument is. -/
theorem finishBlob_results_ne_empty (b : String → BlobOutcome) (text : String)
    (u : AppState) (r : String) (hr : r ≠ "") :
    (finishBlob b text u r).results ≠ "" := by
  show (match (analyze_sentiment_textblob b text).1 with
    | some p => r ++ "Overall Sentiment (TextBlob): " ++ textblob_label p ++ "\n" ++
        "Polarity: " ++ fmt4 p ++ "\n" ++ "Subjectivity: " ++
        fmtSub (analyze_sentiment_textblob b text).2
    | Option.none => r ++ "Error analyzing sentiment with TextBlob.") ≠ ""
  cases hp : (analyze_sentiment_textblob b text).1 with
  | none => exact append_ne_empty_left r _ hr
  | some p =>
      exact append_ne_empty_left _ _ (append_ne_empty_left _ _ (append_ne_empty_left _ _
        (append_ne_empty_left _ _ (append_ne_empty_left _ _ (append_ne_empty_left _ _
          (append_ne_empty_left _ _ (append_ne_empty_left r _ hr)))))))

/-- Any extraction error among the PDF pages aborts the page fold with an
error, whatever text was accumulated before it. -/
theorem extractPagesFrom_error (pages : List (Except String String)) (e : String)
    (hmem : Except.error e ∈ pages) :
    ∀ acc, ∃ e2, extractPagesFrom pages acc = Except.error e2 := by
  induction pages with
  | nil => cases hmem
  | cons p rest ih =>
      intro acc
      cases p with
      | ok t =>
          have hm : Except.error e ∈ rest := by
            rcases List.mem_cons.mp hmem with h | h
            · exact absurd h (by simp)
            · exact h
          exact ih hm (acc ++ t)
      | error e3 => exact ⟨e3, rfl⟩

/-- Every normally completed perform_analysis call ends in the state written by
the TextBlob stage, seeded with a non-empty VADER result line. -/
theorem perform_analysis_completed_shape (v : String → VaderOutcome) (b : String → BlobOutcome)
    (s s1 : AppState) (h : perform_analysis v b s = AnalysisOutcome.completed s1) :
    ∃ r1, r1 ≠ ""
      ∧ s1 = finishBlob b (effectiveText s)
          { s with vader_scores := VaderField.ret (analyze_sentiment_vader v (effectiveText s)) } r1 := by
  unfold perform_analysis vaderStage at h
  by_cases ht : effectiveText s = ""
  · rw [if_pos ht] at h; exact AnalysisOutcome.noConfusion h
  · rw [if_neg ht] at h
    by_cases htr : vaderRetTruthy (analyze_sentiment_vader v (effectiveText s)) = true
    · rw [if_pos htr] at h
      cases hv : analyze_sentiment_vader v (effectiveText s) with
      | errPair e =>
          rw [hv] at h
          exact AnalysisOutcome.noConfusion h
      | dict scores =>
          rw [hv] at h htr
          cases scores with
          | nil => exact absurd htr (by decide)
          | cons kv rest =>
              have hs1 : finishBlob b (effectiveText s)
                  { s with vader_scores := VaderField.ret (VaderRet.dict (kv :: rest)) }
                  ("Overall Sentiment (VADER): " ++ (pyMaxKeyAux kv rest).1 ++ "\n" ++
                    "Scores: " ++ reprScores (kv :: rest) ++ "\n") = s1 := by
                injection h
              refine ⟨"Overall Sentiment (VADER): " ++ (pyMaxKeyAux kv rest).1 ++ "\n" ++
                  "Scores: " ++ reprScores (kv :: rest) ++ "\n", ?_, ?_⟩
              · exact append_ne_empty_left _ _ (append_ne_empty_left _ _
                  (append_ne_empty_left _ _ (append_ne_empty_left _ _
                    (append_ne_empty_left "Overall Sentiment (VADER): "
                      ((pyMaxKeyAux kv rest).1) (by decide)))))
              · exact hs1.symm
    · rw [if_neg htr] at h
      have hs1 : finishBlob b (effectiveText s)
          { s with vader_scores := VaderField.ret (analyze_sentiment_vader v (effectiveText s)) }
          "Error analyzing sentiment with VADER.\n" = s1 := by
        injection h
      exact ⟨"Error analyzing sentiment with VADER.\n", by decide, hs1.symm⟩

/-- Claim C1, counterexample.  The code computes the overall sentiment with
max over the whole score dictionary: on a realistic dictionary whose compound
entry is the largest, line 118 reports compound, which is not among pos, neu,
neg, while the overall sentiment defined by the words of the spec is pos; and
on a pos/neu tie the code reports neu (the earlier dict key), not pos as the
claimed tie order pos, neu, neg, compound would demand. -/
theorem vader_overall_claim_counterexample :
    pyMaxKey cexScores = some "compound"
  ∧ "compound" ∉ (["pos", "neu", "neg"] : List String)
  ∧ specOverallSentiment cexScores = "pos"
  ∧ pyMaxKey tieScores = some "neu"
  ∧ specOverallSentiment tieScores = "pos" :=
  ⟨by decide, by decide, by decide, by decide, by decide⟩

/-- Claim C1, amended.  For a VADER score dictionary, in the iteration order
neg, neu, pos, compound in which VADER builds it, the overall sentiment
computed on line 118 is the first key in that order whose value is maximal
among all four entries, the compound entry included. -/
theorem pyMaxKey_vader_amended (a b c d : ℚ) :
    pyMaxKey [("neg", a), ("neu", b), ("pos", c), ("compound", d)] =
      some (if b ≤ a ∧ c ≤ a ∧ d ≤ a then "neg"
        else if c ≤ b ∧ d ≤ b then "neu"
        else if b ≤ c ∧ d ≤ c then "pos"
        else "compound") := by
  show some (pyMaxKeyAux ("neg", a) [("neu", b), ("pos", c), ("compound", d)]).1 = _
  rw [show pyMaxKeyAux ("neg", a) [("neu", b), ("pos", c), ("compound", d)]
      = pyMaxKeyAux (if a < b then ("neu", b) else ("neg", a)) [("pos", c), ("compound", d)] from rfl]
  rcases lt_or_le a b with h1 | h1
  · rw [if_pos h1]
    rw [show pyMaxKeyAux ("neu", b) [("pos", c), ("compound", d)]
        = pyMaxKeyAux (if b < c then ("pos", c) else ("neu", b)) [("compound", d)] from rfl]
    rcases lt_or_le b c with h2 | h2
    · rw [if_pos h2]
      rw [show pyMaxKeyAux ("pos", c) [("compound", d)]
          = pyMaxKeyAux (if c < d then ("compound", d) else ("pos", c)) [] from rfl]
      rcases lt_or_le c d with h3 | h3
      · rw [if_pos h3,
          if_neg (fun hc : b ≤ a ∧ c ≤ a ∧ d ≤ a => absurd hc.1 (not_le.mpr h1)),
          if_neg (fun hc : c ≤ b ∧ d ≤ b => absurd hc.1 (not_le.mpr h2)),
          if_neg (fun hc : b ≤ c ∧ d ≤ c => absurd hc.2 (not_le.mpr h3))]
        rfl
      · rw [if_neg (not_lt.mpr h3),
          if_neg (fun hc : b ≤ a ∧ c ≤ a ∧ d ≤ a => absurd hc.1 (not_le.mpr h1)),
          if_neg (fun hc : c ≤ b ∧ d ≤ b => absurd hc.1 (not_le.mpr h2)),
          if_pos (⟨le_of_lt h2, h3⟩ : b ≤ c ∧ d ≤ c)]
        rfl
    · rw [if_neg (not_lt.mpr h2)]
      rw [show pyMaxKeyAux ("neu", b) [("compound", d)]
          = pyMaxKeyAux (if b < d then ("compound", d) else ("neu", b)) [] from rfl]
      rcases lt_or_le b d with h3 | h3
      · rw [if_pos h3,
          if_neg (fun hc : b ≤ a ∧ c ≤ a ∧ d ≤ a => absurd hc.1 (not_le.mpr h1)),
          if_neg (fun hc : c ≤ b ∧ d ≤ b => absurd hc.2 (not_le.mpr h3)),
          if_neg (fun hc : b ≤ c ∧ d ≤ c => absurd (le_trans hc.2 h2) (not_le.mpr h3))]
        rfl
      · rw [if_neg (not_lt.mpr h3),
          if_neg (fun hc : b ≤ a ∧ c ≤ a ∧ d ≤ a => absurd hc.1 (not_le.mpr h1)),
          if_pos (⟨h2, h3⟩ : c ≤ b ∧ d ≤ b)]
        rfl
  · rw [if_neg (not_lt.mpr h1)]
    rw [show pyMaxKeyAux ("neg", a) [("pos", c), ("compound", d)]
        = pyMaxKeyAux (if a < c then ("pos", c) else ("neg", a)) [("compound", d)] from rfl]
    rcases lt_or_le a c with h2 | h2
    · rw [if_pos h2]
      rw [show pyMaxKeyAux ("pos", c) [("compound", d)]
          = pyMaxKeyAux (if c < d then ("compound", d) else ("pos", c)) [] from rfl]
      rcases lt_or_le c d with h3 | h3
      · rw [if_pos h3,
          if_neg (fun hc : b ≤ a ∧ c ≤ a ∧ d ≤ a => absurd hc.2.1 (not_le.mpr h2)),
          if_neg (fun hc : c ≤ b ∧ d ≤ b => absurd (le_trans hc.1 h1) (not_le.mpr h2)),
          if_neg (fun hc : b ≤ c ∧ d ≤ c => absurd hc.2 (not_le.mpr h3))]
        rfl
      · rw [if_neg (not_lt.mpr h3),
          if_neg (fun hc : b ≤ a ∧ c ≤ a ∧ d ≤ a => absurd hc.2.1 (not_le.mpr h2)),
          if_neg (fun hc : c ≤ b ∧ d ≤ b => absurd (le_trans hc.1 h1) (not_le.mpr h2)),
          if_pos (⟨le_of_lt (lt_of_le_of_lt h1 h2), h3⟩ : b ≤ c ∧ d ≤ c)]
        rfl
    · rw [if_neg (not_lt.mpr h2)]
      rw [show pyMaxKeyAux ("neg", a) [("compound", d)]
          = pyMaxKeyAux (if a < d then ("compound", d) else ("neg", a)) [] from rfl]
      rcases lt_or_le a d with h3 | h3
      · rw [if_pos h3,
          if_neg (fun hc : b ≤ a ∧ c ≤ a ∧ d ≤ a => absurd hc.2.2 (not_le.mpr h3)),
          if_neg (fun hc : c ≤ b ∧ d ≤ b => absurd (le_trans hc.2 h1) (not_le.mpr h3)),
          if_neg (fun hc : b ≤ c ∧ d ≤ c => absurd (le_trans hc.2 h2) (not_le.mpr h3))]
        rfl
      · rw [if_neg (not_lt.mpr h3), if_pos (⟨h1, h2, h3⟩ : b ≤ a ∧ c ≤ a ∧ d ≤ a)]
        rfl

/-- Claim C2.  When the VADER scorer raises, its failure is not captured in the
result record: analyze_sentiment_vader returns the truthy tuple (None, str(e)),
perform_analysis takes the success branch, and evaluating
self.vader_scores.get raises AttributeError out of the method, before the
TextBlob scorer runs and before self.results is written (so it is still empty
and the stored polarity untouched). -/
theorem vader_exception_escapes :
    perform_analysis vaderBoom blobOkDemo c2State =
      AnalysisOutcome.raised c2Raised "AttributeError: tuple object has no attribute get"
  ∧ c2Raised.results = ""
  ∧ c2Raised.polarity = Option.none := ⟨rfl, rfl, rfl⟩

/-- Claim C3.  The analysis is idempotent and carries no hidden state: a
perform_analysis call that completes leaves the inputs it reads (entry text and
file content) unchanged, so running it again from the resulting state takes the
same branches, recomputes the same VADER and TextBlob results, and returns the
very same state. -/
theorem perform_analysis_idempotent (v : String → VaderOutcome) (b : String → BlobOutcome)
    (s s1 : AppState) (h : perform_analysis v b s = AnalysisOutcome.completed s1) :
    perform_analysis v b s1 = AnalysisOutcome.completed s1 := by
  unfold perform_analysis vaderStage at h
  by_cases ht : effectiveText s = ""
  · rw [if_pos ht] at h; exact AnalysisOutcome.noConfusion h
  · rw [if_neg ht] at h
    by_cases htr : vaderRetTruthy (analyze_sentiment_vader v (effectiveText s)) = true
    · rw [if_pos htr] at h
      cases hv : analyze_sentiment_vader v (effectiveText s) with
      | errPair e =>
          rw [hv] at h
          exact AnalysisOutcome.noConfusion h
      | dict scores =>
          rw [hv] at h htr
          cases scores with
          | nil => exact absurd htr (by decide)
          | cons kv rest =>
              have hs1 : finishBlob b (effectiveText s)
                  { s with vader_scores := VaderField.ret (VaderRet.dict (kv :: rest)) }
                  ("Overall Sentiment (VADER): " ++ (pyMaxKeyAux kv rest).1 ++ "\n" ++
                    "Scores: " ++ reprScores (kv :: rest) ++ "\n") = s1 := by
                injection h
              rw [← hs1]
              unfold perform_analysis vaderStage
              have hT : effectiveText (finishBlob b (effectiveText s)
                  { s with vader_scores := VaderField.ret (VaderRet.dict (kv :: rest)) }
                  ("Overall Sentiment (VADER): " ++ (pyMaxKeyAux kv rest).1 ++ "\n" ++
                    "Scores: " ++ reprScores (kv :: rest) ++ "\n")) = effectiveText s := rfl
              rw [hT, if_neg ht, hv, if_pos htr]
              rfl
    · rw [if_neg htr] at h
      have hs1 : finishBlob b (effectiveText s)
          { s with vader_scores := VaderField.ret (analyze_sentiment_vader v (effectiveText s)) }
          "Error analyzing sentiment with VADER.\n" = s1 := by
        injection h
      rw [← hs1]
      unfold perform_analysis vaderStage
      have hT : effectiveText (finishBlob b (effectiveText s)
          { s with vader_scores := VaderField.ret (analyze_sentiment_vader v (effectiveText s)) }
          "Error analyzing sentiment with VADER.\n") = effectiveText s := rfl
      rw [hT, if_neg ht, if_neg htr]
      rfl

/-- Claim C3, witness: a concrete completing analysis, repeated from its own
final state, returns the same state. -/
theorem perform_analysis_idempotent_witness :
    perform_analysis vOkDemo blobOkDemo c3Demo1 = AnalysisOutcome.completed c3Demo1 :=
  perform_analysis_idempotent vOkDemo blobOkDemo c3DemoState c3Demo1 rfl

/-- Claim C4.  For each recognized file type, an extraction failure surfaces to
the caller as the raised error and no text is returned; in particular a PDF
page failing partway makes the whole call fail, never yielding the pages
already read. -/
theorem process_file_error_propagation (fs : FileSystem) (path e : String) :
    (fs.readTxt path = Except.error e → process_file fs path "txt" = Except.error e)
  ∧ (fs.readCsv path = Except.error e → process_file fs path "csv" = Except.error e)
  ∧ (fs.openPdf path = Except.error e → process_file fs path "pdf" = Except.error e)
  ∧ (∀ pages, fs.openPdf path = Except.ok pages → Except.error e ∈ pages →
      isStrError (process_file fs path "pdf") = true) := by
  refine ⟨?_, ?_, ?_, ?_⟩
  · intro he
    unfold process_file
    rw [if_pos rfl]
    exact he
  · intro he
    unfold process_file
    rw [if_neg (by decide), if_pos rfl]
    exact he
  · intro he
    unfold process_file
    rw [if_neg (by decide), if_neg (by decide), if_pos rfl, he]
  · intro pages hok hmem
    unfold process_file
    rw [if_neg (by decide), if_neg (by decide), if_pos rfl, hok]
    obtain ⟨e2, he2⟩ := extractPagesFrom_error pages e hmem ""
    show isStrError (extractPagesFrom pages "") = true
    rw [he2]
    rfl

/-- Claim C4, witness: on a file system whose text read raises and whose PDF
fails on its second page, process_file returns the error in both cases. -/
theorem process_file_error_propagation_witness :
    process_file c4Fs "a.txt" "txt" = Except.error "IOError: bad encoding"
  ∧ isStrError (process_file c4Fs "doc.pdf" "pdf") = true :=
  ⟨(process_file_error_propagation c4Fs "a.txt" "IOError: bad encoding").1 rfl,
   (process_file_error_propagation c4Fs "doc.pdf" "ParseError: bad page").2.2.2
     [Except.ok "page one ", Except.error "ParseError: bad page"] rfl (by simp)⟩

/-- Claim C5.  With an empty stored results record, as right after start-up or
a clear action, save_results shows the no-results warning, writes nothing and
leaves the state unchanged. -/
theorem save_results_empty_guard (d : Option String) (s t : AppState) (h : s.results = "") :
    save_results d s = SaveOutcome.noResultsWarning s
  ∧ initState.results = "" ∧ (clear_text t).results = "" := by
  refine ⟨?_, rfl, rfl⟩
  unfold save_results
  rw [if_neg (fun hc => hc h)]

/-- Claim C5, witness: saving from the start-up state is rejected. -/
theorem save_results_empty_guard_witness :
    save_results (some "out.txt") initState = SaveOutcome.noResultsWarning initState
  ∧ initState.results = "" ∧ (clear_text initState).results = "" :=
  save_results_empty_guard (some "out.txt") initState initState rfl

/-- Claim C6.  The TextBlob label computed on line 127 is Positive exactly when
the polarity is positive, Negative exactly when it is negative, and Neutral
exactly when it is zero. -/
theorem textblob_label_trichotomy (q : ℚ) :
    (textblob_label q = "Positive" ↔ 0 < q)
  ∧ (textblob_label q = "Negative" ↔ q < 0)
  ∧ (textblob_label q = "Neutral" ↔ q = 0) := by
  unfold textblob_label
  split_ifs with h1 h2
  · refine ⟨⟨fun _ => h1, fun _ => rfl⟩,
      ⟨fun hh => absurd hh (by decide), fun hh => absurd (hh.trans h1) (lt_irrefl q)⟩,
      ⟨fun hh => absurd hh (by decide), fun hh => absurd h1 (by rw [hh]; exact lt_irrefl 0)⟩⟩
  · refine ⟨⟨fun hh => absurd hh (by decide), fun hh => absurd hh h1⟩,
      ⟨fun _ => h2, fun _ => rfl⟩,
      ⟨fun hh => absurd hh (by decide), fun hh => absurd h2 (by rw [hh]; exact lt_irrefl 0)⟩⟩
  · have h0 : q = 0 := le_antisymm (not_lt.mp h1) (not_lt.mp h2)
    refine ⟨⟨fun hh => absurd hh (by decide), fun hh => absurd hh h1⟩,
      ⟨fun hh => absurd hh (by decide), fun hh => absurd hh h2⟩,
      ⟨fun _ => h0, fun _ => rfl⟩⟩

/-- Claim C7, counterexample.  When the TextBlob call raises, the subjectivity
slot of the returned pair holds the error message string, which is neither
absent nor a number in the unit interval. -/
theorem subjectivity_claim_counterexample :
    ¬ specSubjectivityOk (analyze_sentiment_textblob blobBoomModel.run "any text").2 := by
  intro hc
  exact hc

/-- Claim C7, amended.  Under the spec-modelled range contract of TextBlob, the
wrapper forwards the values unchanged: the result is either the failure pair,
whose polarity is absent and whose subjectivity is the error string, or a
success pair with polarity in the closed interval from -1 to 1 and subjectivity
in the unit interval. -/
theorem textblob_ranges (M : TextBlobModel) (t : String) :
    (∃ e, analyze_sentiment_textblob M.run t = (Option.none, PyVal.str e))
  ∨ (∃ p q, analyze_sentiment_textblob M.run t = (some p, PyVal.num q)
      ∧ -1 ≤ p ∧ p ≤ 1 ∧ 0 ≤ q ∧ q ≤ 1) := by
  cases hb : M.run t with
  | ok p q =>
      right
      refine ⟨p, q, ?_, (M.polarity_range t p q hb).1, (M.polarity_range t p q hb).2,
        (M.subjectivity_range t p q hb).1, (M.subjectivity_range t p q hb).2⟩
      unfold analyze_sentiment_textblob
      rw [hb]
  | exn e =>
      left
      refine ⟨e, ?_⟩
      unfold analyze_sentiment_textblob
      rw [hb]

/-- Claim C8.  For a declared file type outside txt, csv, pdf, process_file
returns the empty string without touching the file system oracles and without
raising. -/
theorem process_file_unknown_type (fs : FileSystem) (path ft : String)
    (h : ft ∉ (["txt", "csv", "pdf"] : List String)) :
    process_file fs path ft = Except.ok "" := by
  unfold process_file
  rw [if_neg (fun hc => h (by rw [hc]; simp)),
    if_neg (fun hc => h (by rw [hc]; simp)),
    if_neg (fun hc => h (by rw [hc]; simp))]

/-- Claim C8, witness: an upper-case extension is not recognized, even on a
file system on which every read fails. -/
theorem process_file_unknown_type_witness :
    ("TXT" ∉ (["txt", "csv", "pdf"] : List String))
  ∧ process_file c4Fs "a.TXT" "TXT" = Except.ok "" :=
  ⟨by decide, process_file_unknown_type c4Fs "a.TXT" "TXT" (by decide)⟩

/-- Claim C9.  When the stripped entry text and the stored file content are
both empty, perform_analysis shows the input warning and returns with every
stored field exactly as it was. -/
theorem perform_analysis_empty_input_frame (v : String → VaderOutcome)
    (b : String → BlobOutcome) (s : AppState)
    (h1 : pyStrip s.text_entry = "") (h2 : s.file_content = "") :
    perform_analysis v b s = AnalysisOutcome.warned s := by
  unfold perform_analysis
  rw [if_pos (show effectiveText s = "" by unfold effectiveText; rw [if_pos h1]; exact h2)]

/-- Claim C9, witness: a whitespace-only entry on the fresh state is rejected
with the warning and the state returned unchanged. -/
theorem perform_analysis_empty_input_frame_witness :
    perform_analysis vaderBoom blobOkDemo { initState with text_entry := "   " } =
      AnalysisOutcome.warned { initState with text_entry := "   " } :=
  perform_analysis_empty_input_frame vaderBoom blobOkDemo
    { initState with text_entry := "   " } rfl rfl

/-- Claim C10, counterexample.  A call that passes the non-empty-input check
but hits a VADER exception raises before self.results is assigned, leaving the
stored results record empty, so a subsequent save would still be rejected. -/
theorem results_nonempty_claim_counterexample :
    effectiveText c2State ≠ ""
  ∧ perform_analysis vaderBoom blobOkDemo c2State =
      AnalysisOutcome.raised c2Raised "AttributeError: tuple object has no attribute get"
  ∧ c2Raised.results = "" := ⟨by decide, rfl, rfl⟩

/-- Claim C10, amended.  Every perform_analysis call that completes normally
stores a non-empty results record, even when a scorer reported failure through
its error branch. -/
theorem perform_analysis_results_nonempty (v : String → VaderOutcome) (b : String → BlobOutcome)
    (s s1 : AppState) (h : perform_analysis v b s = AnalysisOutcome.completed s1) :
    s1.results ≠ "" := by
  obtain ⟨r1, hr1, hs1⟩ := perform_analysis_completed_shape v b s s1 h
  rw [hs1]
  exact finishBlob_results_ne_empty _ _ _ _ hr1

/-- Claim C10, witness: a concrete completing analysis stores a non-empty
results record. -/
theorem perform_analysis_results_nonempty_witness : c10Final.results ≠ "" :=
  perform_analysis_results_nonempty vOkDemo blobOkDemo c10DemoState c10Final rfl

end Sentiment1
